import Mathlib

/-!
Verification of the golang-opensearch client wrapper.

The Go code manipulates `map[string]interface{}` values (JSON documents).
We embed them as association lists of `String × Json`, where `Json` is a
deep embedding of JSON values.  Go map assignment, lookup and `delete`
become `setKey`, `lookupKey` and `eraseKey` on association lists.
Network activity is embedded by parameterising each operation over the
outcome of its single HTTP round trip (`TransportOutcome`), and Go error
values produced by the fmt.Errorf idioms become the `GoErr` type
(`%w` wrapping is `GoErr.wrap`, a flat message is `GoErr.msg`).
-/

/-- A JSON value, as produced by Go's encoding/json on
`map[string]interface{}` data.  Objects are association lists; Go map
keys are unique, and the builders in the source only ever construct
objects with distinct keys. -/
inductive Json where
  | null : Json
  | bool (b : Bool) : Json
  | num (n : Int) : Json
  | str (s : String) : Json
  | arr (xs : List Json) : Json
  | obj (kvs : List (String × Json)) : Json

/-- A Go `map[string]interface{}`, embedded as an association list. -/
abbrev Doc := List (String × Json)

/-- Go map read `d[k]`: the value stored under `k`, if any. -/
def lookupKey : Doc → String → Option Json
  | [], _ => none
  | (k', v) :: rest, k => if k' = k then some v else lookupKey rest k

/-- Go map assignment `d[k] = v`: overwrite in place, or add the key. -/
def setKey : Doc → String → Json → Doc
  | [], k, v => [(k, v)]
  | (k', v') :: rest, k, v =>
      if k' = k then (k, v) :: rest else (k', v') :: setKey rest k v

/-- Go `delete(d, k)`: remove the binding for `k`. -/
def eraseKey : Doc → String → Doc
  | [], _ => []
  | (k', v') :: rest, k =>
      if k' = k then eraseKey rest k else (k', v') :: eraseKey rest k

/-- Go `_, ok := d[k]` as a Bool. -/
def hasKey (d : Doc) (k : String) : Bool :=
  (lookupKey d k).isSome

theorem lookupKey_setKey_same (d : Doc) (k : String) (v : Json) :
    lookupKey (setKey d k v) k = some v := by
  induction d with
  | nil => simp [setKey, lookupKey]
  | cons hd tl ih =>
      obtain ⟨k', v'⟩ := hd
      by_cases h : k' = k
      · simp [setKey, h, lookupKey]
      · simp [setKey, h, lookupKey, ih]

theorem lookupKey_setKey_other (d : Doc) (k k' : String) (v : Json)
    (hne : k' ≠ k) : lookupKey (setKey d k v) k' = lookupKey d k' := by
  induction d with
  | nil => simp [setKey, lookupKey, Ne.symm hne]
  | cons hd tl ih =>
      obtain ⟨k0, v0⟩ := hd
      by_cases h : k0 = k
      · subst h
        simp [setKey, lookupKey, Ne.symm hne]
      · by_cases h2 : k0 = k'
        · simp [setKey, h, lookupKey, h2, hne]
        · simp [setKey, h, lookupKey, h2, ih]

theorem lookupKey_eraseKey_same (d : Doc) (k : String) :
    lookupKey (eraseKey d k) k = none := by
  induction d with
  | nil => simp [eraseKey, lookupKey]
  | cons hd tl ih =>
      obtain ⟨k', v'⟩ := hd
      by_cases h : k' = k
      · simp [eraseKey, h, ih]
      · simp [eraseKey, h, lookupKey, ih]

theorem lookupKey_eraseKey_other (d : Doc) (k k' : String)
    (hne : k' ≠ k) : lookupKey (eraseKey d k) k' = lookupKey d k' := by
  induction d with
  | nil => simp [eraseKey]
  | cons hd tl ih =>
      obtain ⟨k0, v0⟩ := hd
      by_cases h : k0 = k
      · subst h
        simp [eraseKey, lookupKey, Ne.symm hne, ih]
      · by_cases h2 : k0 = k'
        · simp [eraseKey, h, lookupKey, h2, hne]
        · simp [eraseKey, h, lookupKey, h2, ih]

theorem lookupKey_append (a b : Doc) (k : String) :
    lookupKey (a ++ b) k =
      match lookupKey a k with
      | some v => some v
      | none => lookupKey b k := by
  induction a with
  | nil => simp [lookupKey]
  | cons hd tl ih =>
      obtain ⟨k', v'⟩ := hd
      by_cases h : k' = k
      · simp [lookupKey, h]
      · simp [lookupKey, h, ih]

/-! ## Query builders (crud.go / models.go) -/

/-- MatchAllQuery from the source: a match_all query document. -/
def MatchAllQuery : Doc :=
  [("query", Json.obj [("match_all", Json.obj [])])]

/-- MatchQuery from the source: a match query for one field. -/
def MatchQuery (field value : String) : Doc :=
  [("query", Json.obj [("match", Json.obj [(field, Json.str value)])])]

/-- The match leaf MatchMapQuery builds for one field-value pair. -/
def matchLeaf (fv : String × Json) : Json :=
  Json.obj [("match", Json.obj [(fv.1, fv.2)])]

/-- MatchMapQuery from the source: a bool query whose must clause holds
one match leaf per entry of the field-value map.  The Go map is embedded
as an association list; Go's randomized iteration order becomes list
order, which none of the verified properties depend on. -/
def MatchMapQuery (fieldValues : List (String × Json)) : Doc :=
  [("query", Json.obj [("bool", Json.obj
    [("must", Json.arr (fieldValues.map matchLeaf))])])]

/-- The range condition RangeQuery builds: only present bounds are added
(source: an empty map, then conditional assignments for gte and lte). -/
def rangeCondition (gte lte : Option Json) : Doc :=
  (match gte with
   | some g => [("gte", g)]
   | none => []) ++
  (match lte with
   | some l => [("lte", l)]
   | none => [])

/-- RangeQuery from the source. -/
def RangeQuery (field : String) (gte lte : Option Json) : Doc :=
  [("query", Json.obj [("range", Json.obj
    [(field, Json.obj (rangeCondition gte lte))])])]

/-- The bool object BoolQuery builds: each clause list is added only
when non-empty (source: three `if len(..) > 0` assignments, in the order
must, should, must_not). -/
def boolClauses (must should mustNot : List Doc) : Doc :=
  (if must.length > 0 then [("must", Json.arr (must.map Json.obj))] else []) ++
  (if should.length > 0 then [("should", Json.arr (should.map Json.obj))] else []) ++
  (if mustNot.length > 0 then [("must_not", Json.arr (mustNot.map Json.obj))] else [])

/-- BoolQuery from the source. -/
def BoolQuery (must should mustNot : List Doc) : Doc :=
  [("query", Json.obj [("bool", Json.obj (boolClauses must should mustNot))])]

/-- WithSize from the source: `query["size"] = size; return query`. -/
def WithSize (query : Doc) (size : Int) : Doc :=
  setKey query "size" (Json.num size)

/-- WithFrom from the source: `query["from"] = from; return query`. -/
def WithFrom (query : Doc) (from_ : Int) : Doc :=
  setKey query "from" (Json.num from_)

/-- WithSort from the source: `query["sort"] = [{field: {"order": order}}]`. -/
def WithSort (query : Doc) (field order : String) : Doc :=
  setKey query "sort"
    (Json.arr [Json.obj [(field, Json.obj [("order", Json.str order)])]])

/-- Extracts the bool object of a query document (the value at
query.bool), for stating properties of bool-query builders. -/
def boolOf (q : Doc) : Doc :=
  match lookupKey q "query" with
  | some (Json.obj o) =>
      (match lookupKey o "bool" with
       | some (Json.obj b) => b
       | _ => [])
  | _ => []

/-! ## Go error values -/

/-- A Go error value as built by the fmt.Errorf idioms in the source:
`msg` is a flat formatted message, `wrap` is the `%w` wrapping of an
underlying error behind a message prefix. -/
inductive GoErr where
  | msg (s : String) : GoErr
  | wrap (pre : String) (inner : GoErr) : GoErr
deriving DecidableEq

/-! ## Client construction (client.go) -/

/-- Config from client.go. -/
structure Config where
  addresses : List String
  username : String
  password : String
  insecureSkipVerify : Bool

/-- The opensearch.Config value NewClient passes to the wrapped
library: addresses and credentials copied over, and a custom transport
with TLS verification disabled only when requested. -/
structure OSConfig where
  addresses : List String
  username : String
  password : String
  insecureTransport : Bool
deriving DecidableEq

/-- Client from client.go: the handle wrapping one underlying client. -/
structure ClientHandle (U : Type) where
  client : U
deriving DecidableEq

/-- The opensearch.Config built from a Config by NewClient. -/
def toOSConfig (config : Config) : OSConfig :=
  { addresses := config.addresses
    username := config.username
    password := config.password
    insecureTransport := config.insecureSkipVerify }

/-- NewClient from client.go.  The wrapped library's constructor is an
external dependency, embedded as the parameter `underlying` giving its
outcome on the built configuration. -/
def NewClient (U : Type) (underlying : OSConfig → Except GoErr U)
    (config : Config) : Except GoErr (ClientHandle U) :=
  if config.addresses.length = 0 then
    .error (.msg "at least one address is required")
  else
    match underlying (toOSConfig config) with
    | .error e => .error (.wrap "failed to create OpenSearch client: " e)
    | .ok u => .ok { client := u }

/-! ## Transport and response parsing (models.go, opensearch-go) -/

/-- The outcome of the single `req.Do` round trip of an operation:
either a transport error, or a response carrying its status code, its
status text, and the result of JSON-decoding its body into the
operation's response struct (only consulted when the operation parses
the body). -/
inductive TransportOutcome (R : Type) where
  | doErr (e : GoErr) : TransportOutcome R
  | res (statusCode : Nat) (statusText : String) (decoded : Except GoErr R) :
      TransportOutcome R

/-- Response.IsError from the wrapped library: status code above 299. -/
def isErrorStatus (statusCode : Nat) : Bool :=
  statusCode > 299

/-- parseResponse from models.go: wraps any decode failure. -/
def parseResponse (R : Type) (decoded : Except GoErr R) : Except GoErr R :=
  match decoded with
  | .error e => .error (.wrap "failed to parse response: " e)
  | .ok v => .ok v

/-! ## Search (crud.go) -/

/-- Hit from models.go.  The relevance score is a float64 in Go; it is
kept as the opaque decoded JSON value, which the code only moves, never
computes with. -/
structure Hit where
  index : String
  id : String
  score : Json
  source : Doc

/-- SearchResponse from models.go (total and took are decoded but never
read by the operations). -/
structure SearchResponse where
  took : Int
  totalValue : Int
  totalRelation : String
  maxScore : Json
  hits : List Hit

/-- The annotation SearchDocuments applies to one hit:
`doc["_id"] = hit.ID; doc["_score"] = hit.Score` on the hit's source. -/
def annotateHit (h : Hit) : Doc :=
  setKey (setKey h.source "_id" (Json.str h.id)) "_score" h.score

/-- The result list SearchDocuments builds from the response hits. -/
def mapHits (hits : List Hit) : List Doc :=
  hits.map annotateHit

/-- SearchDocuments from crud.go, from the point the query has been
serialized (serialization of a `Doc` never fails): one round trip, then
status check, then parse, then per-hit annotation. -/
def SearchDocuments (index : String) (query : Doc)
    (server : TransportOutcome SearchResponse) : Except GoErr (List Doc) :=
  match server with
  | .doErr e => .error (.wrap "failed to search documents: " e)
  | .res code text decoded =>
      if isErrorStatus code then
        .error (.msg ("search request failed with status: " ++ text))
      else
        match parseResponse SearchResponse decoded with
        | .error e => .error e
        | .ok resp => .ok (mapHits resp.hits)

/-! ## Index existence (crud.go) -/

/-- IndexExists from crud.go: a 404 status is converted to `false`
before the generic IsError check; the response body is never parsed. -/
def IndexExists (index : String) (server : TransportOutcome Unit) :
    Except GoErr Bool :=
  match server with
  | .doErr e => .error (.wrap "failed to check index existence: " e)
  | .res code text _ =>
      if code = 404 then .ok false
      else if isErrorStatus code then
        .error (.msg ("index exists request failed with status: " ++ text))
      else .ok true

/-! ## Bulk indexing (crud.go) -/

/-- The error field of a BulkItem (models.go). -/
structure BulkItemError where
  type : String
  reason : String
deriving DecidableEq

/-- BulkItem from models.go. -/
structure BulkItem where
  index : String
  id : String
  version : Int
  result : String
  status : Int
  error : BulkItemError
deriving DecidableEq

/-- BulkResponse from models.go: the errors flag and one
operation-name-to-item map per bulk entry. -/
structure BulkResponse where
  took : Int
  errors : Bool
  items : List (List (String × BulkItem))
deriving DecidableEq

/-- The per-item error descriptions BulkCreate collects from a bulk
response: for each operation of each item whose error type is non-empty,
the `type: reason` line (fmt.Sprintf of the item's error fields). -/
def bulkErrorMessages (items : List (List (String × BulkItem))) : List String :=
  items.flatMap (fun item =>
    item.filterMap (fun op =>
      if op.2.error.type ≠ "" then some (op.2.error.type ++ ": " ++ op.2.error.reason)
      else none))

/-- The object under "index" in the action line BulkCreate writes for
one document: the target index, plus the document's own reserved "_id"
entry when present. -/
def bulkActionInner (index : String) (doc : Doc) : Doc :=
  [("_index", Json.str index)] ++
  (match lookupKey doc "_id" with
   | some v => [("_id", v)]
   | none => [])

/-- The full action line: `{"index": {...}}` around the inner object. -/
def bulkActionLine (index : String) (doc : Doc) : Json :=
  Json.obj [("index", Json.obj (bulkActionInner index doc))]

/-- The newline-delimited body BulkCreate assembles: per document, the
action line followed by the document after `delete(doc, "_id")`. -/
def bulkLines (index : String) (documents : List Doc) : List Json :=
  documents.flatMap (fun doc =>
    [bulkActionLine index doc, Json.obj (eraseKey doc "_id")])

/-- The observable outcome of one BulkCreate call: the returned error or
success, the caller's documents after the call (Go maps are mutated in
place by the `delete`), and the request body lines sent, if a request
was issued at all. -/
structure BulkCall where
  result : Except GoErr Unit
  documents : List Doc
  request : Option (List Json)

/-- The response-handling tail of BulkCreate: the errors flag guards the
collection of per-item messages, and the call fails only when at least
one message was collected. -/
def bulkResultOf (resp : BulkResponse) : Except GoErr Unit :=
  if resp.errors then
    (if (bulkErrorMessages resp.items).length > 0 then
      .error (.msg ("bulk operation had errors: " ++
        String.intercalate "; " (bulkErrorMessages resp.items)))
    else .ok ())
  else .ok ()

/-- BulkCreate from crud.go.  An empty document list returns nil at
once, before any buffer is built or any request issued.  Otherwise the
body is assembled (mutating every document that carries "_id"), the
single request is issued, and the response is checked for status and
then for per-item errors. -/
def BulkCreate (index : String) (documents : List Doc)
    (server : TransportOutcome BulkResponse) : BulkCall :=
  if documents.length = 0 then
    { result := .ok (), documents := documents, request := none }
  else
    { documents := documents.map (fun d => eraseKey d "_id")
      request := some (bulkLines index documents)
      result :=
        match server with
        | .doErr e => .error (.wrap "failed to perform bulk operation: " e)
        | .res code text decoded =>
            if isErrorStatus code then
              .error (.msg ("bulk request failed with status: " ++ text))
            else
              match parseResponse BulkResponse decoded with
              | .error e => .error e
              | .ok resp => bulkResultOf resp }

/-! ## Claim theorems -/

/-- C4: for every field name and pair of optional bounds, RangeQuery's
range condition contains exactly the bounds that are present: the gte
key holds exactly the given lower bound, the lte key exactly the given
upper bound, and the key list is exactly the keys of the present bounds
(both, only gte, or neither). -/
theorem rangeQuery_includes_exactly_present_bounds
    (field : String) (gte lte : Option Json) :
    RangeQuery field gte lte =
      [("query", Json.obj [("range", Json.obj
        [(field, Json.obj (rangeCondition gte lte))])])] ∧
    lookupKey (rangeCondition gte lte) "gte" = gte ∧
    lookupKey (rangeCondition gte lte) "lte" = lte ∧
    (rangeCondition gte lte).map Prod.fst =
      (match gte with | some _ => ["gte"] | none => []) ++
      (match lte with | some _ => ["lte"] | none => []) := by
  refine ⟨rfl, ?_, ?_, ?_⟩ <;>
    cases gte <;> cases lte <;> simp [rangeCondition, lookupKey]

/-- C5: each of the three clause lists of BoolQuery is included in the
bool object exactly when non-empty (its key holds the clause array when
the list is non-empty and is absent otherwise), and with all three lists
empty the bool object is empty. -/
theorem boolQuery_includes_nonempty_clause_lists
    (must should mustNot : List Doc) :
    BoolQuery must should mustNot =
      [("query", Json.obj [("bool", Json.obj (boolClauses must should mustNot))])] ∧
    lookupKey (boolClauses must should mustNot) "must" =
      (if must.length > 0 then some (Json.arr (must.map Json.obj)) else none) ∧
    lookupKey (boolClauses must should mustNot) "should" =
      (if should.length > 0 then some (Json.arr (should.map Json.obj)) else none) ∧
    lookupKey (boolClauses must should mustNot) "must_not" =
      (if mustNot.length > 0 then some (Json.arr (mustNot.map Json.obj)) else none) ∧
    boolClauses [] [] [] = [] := by
  refine ⟨rfl, ?_, ?_, ?_, rfl⟩ <;>
    rcases must with _ | ⟨m, ms⟩ <;>
    rcases should with _ | ⟨s, ss⟩ <;>
    rcases mustNot with _ | ⟨n, ns⟩ <;>
    simp [boolClauses, lookupKey]

/-- C6: composing the modifiers on a match query,
WithSize (WithSort (MatchQuery "category" "tutorial") "views" "desc") 10
yields one query document simultaneously holding the original match
leaf, a sort key with exactly one entry for views descending, and a
size key equal to 10, none clobbering the others. -/
theorem withSize_withSort_match_compose :
    lookupKey (WithSize (WithSort (MatchQuery "category" "tutorial") "views" "desc") 10)
        "query"
      = some (Json.obj [("match", Json.obj [("category", Json.str "tutorial")])]) ∧
    lookupKey (WithSize (WithSort (MatchQuery "category" "tutorial") "views" "desc") 10)
        "sort"
      = some (Json.arr [Json.obj [("views", Json.obj [("order", Json.str "desc")])]]) ∧
    lookupKey (WithSize (WithSort (MatchQuery "category" "tutorial") "views" "desc") 10)
        "size"
      = some (Json.num 10) ∧
    WithSize (WithSort (MatchQuery "category" "tutorial") "views" "desc") 10 =
      [("query", Json.obj [("match", Json.obj [("category", Json.str "tutorial")])]),
       ("sort", Json.arr [Json.obj [("views", Json.obj [("order", Json.str "desc")])]]),
       ("size", Json.num 10)] :=
  ⟨rfl, rfl, rfl, rfl⟩

/-- C10: MatchMapQuery always includes a must key in its bool object,
holding one match leaf per map entry; for the empty map the must clause
list is the empty array, whereas BoolQuery with three empty lists emits
no must key at all. -/
theorem matchMapQuery_always_has_must (fieldValues : List (String × Json)) :
    lookupKey (boolOf (MatchMapQuery fieldValues)) "must"
      = some (Json.arr (fieldValues.map matchLeaf)) ∧
    (fieldValues.map matchLeaf).length = fieldValues.length ∧
    boolOf (MatchMapQuery []) = [("must", Json.arr [])] ∧
    lookupKey (boolOf (BoolQuery [] [] [])) "must" = none := by
  refine ⟨?_, by simp, rfl, rfl⟩
  simp [MatchMapQuery, boolOf, lookupKey]

/-- C3: for every index name and every server behaviour, BulkCreate on
an empty document list succeeds as a no-op: it returns nil, issues no
request, and leaves the (empty) document list untouched. -/
theorem bulkCreate_empty_is_noop (index : String)
    (server : TransportOutcome BulkResponse) :
    BulkCreate index [] server =
      { result := .ok (), documents := [], request := none } :=
  rfl

/-- C7: IndexExists never fails on a not-found condition: a response
with status 404 yields `Except.ok false`, and an error is returned only
on transport failure or on a non-success status other than 404. -/
theorem indexExists_notFound_is_false (index : String)
    (server : TransportOutcome Unit) :
    (∀ text d, server = .res 404 text d →
      IndexExists index server = .ok false) ∧
    (∀ e, IndexExists index server = .error e →
      (∃ e0, server = .doErr e0) ∨
      (∃ code text d, server = .res code text d ∧
        isErrorStatus code = true ∧ code ≠ 404)) := by
  constructor
  · rintro text d rfl
    simp [IndexExists]
  · intro e he
    cases server with
    | doErr e0 => exact Or.inl ⟨e0, rfl⟩
    | res code text d =>
        refine Or.inr ⟨code, text, d, rfl, ?_, ?_⟩ <;>
        · by_cases h404 : code = 404
          · simp [IndexExists, h404] at he
          · by_cases herr : isErrorStatus code = true
            · first
                | exact herr
                | exact h404
            · simp [IndexExists, h404, herr] at he

/-- Witness for the C7 theorem at a concrete 404 response. -/
theorem indexExists_notFound_is_false_witness :
    IndexExists "blog" (.res 404 "404 Not Found" (.ok ())) = .ok false :=
  (indexExists_notFound_is_false "blog"
    (.res 404 "404 Not Found" (.ok ()))).1 "404 Not Found" (.ok ()) rfl

/-- C8: on a successful search round trip the result is exactly the
hit list mapped in order: same length, the entry at each position is
that hit's source annotated with the hit's id and score under the
reserved keys "_id" and "_score", and every other key of the source is
preserved unchanged. -/
theorem searchDocuments_maps_hits (index : String) (query : Doc)
    (code : Nat) (text : String) (resp : SearchResponse)
    (hok : isErrorStatus code = false) :
    SearchDocuments index query (.res code text (.ok resp))
      = .ok (mapHits resp.hits) ∧
    (mapHits resp.hits).length = resp.hits.length ∧
    ∀ i h, resp.hits.get? i = some h →
      (mapHits resp.hits).get? i = some (annotateHit h) ∧
      lookupKey (annotateHit h) "_id" = some (Json.str h.id) ∧
      lookupKey (annotateHit h) "_score" = some h.score ∧
      ∀ k, k ≠ "_id" → k ≠ "_score" →
        lookupKey (annotateHit h) k = lookupKey h.source k := by
  refine ⟨?_, ?_, ?_⟩
  · simp [SearchDocuments, hok, parseResponse]
  · simp [mapHits]
  · intro i h hh
    refine ⟨?_, ?_, ?_, ?_⟩
    · have hh2 : resp.hits[i]? = some h := by
        simpa [← List.get?_eq_getElem?] using hh
      simp [mapHits, List.get?_eq_getElem?, List.getElem?_map, hh2]
    · rw [annotateHit, lookupKey_setKey_other _ _ _ _ (by decide),
        lookupKey_setKey_same]
    · rw [annotateHit, lookupKey_setKey_same]
    · intro k hk1 hk2
      rw [annotateHit, lookupKey_setKey_other _ _ _ _ hk2,
        lookupKey_setKey_other _ _ _ _ hk1]

/-- Witness for the C8 theorem at a concrete single-hit response. -/
theorem searchDocuments_maps_hits_witness :
    SearchDocuments "blog" MatchAllQuery (.res 200 "200 OK" (.ok
      { took := 3, totalValue := 1, totalRelation := "eq",
        maxScore := Json.num 1,
        hits := [{ index := "blog", id := "d1", score := Json.num 1,
                   source := [("title", Json.str "go")] }] }))
      = .ok [[("title", Json.str "go"), ("_id", Json.str "d1"),
              ("_score", Json.num 1)]] :=
  (searchDocuments_maps_hits "blog" MatchAllQuery 200 "200 OK"
    { took := 3, totalValue := 1, totalRelation := "eq",
      maxScore := Json.num 1,
      hits := [{ index := "blog", id := "d1", score := Json.num 1,
                 source := [("title", Json.str "go")] }] } rfl).1

/-- C2: NewClient fails with the invalid-configuration error exactly on
an empty address list: an empty list always yields that error, and a
non-empty list never yields it — the call then returns the handle
wrapping the client the underlying constructor produced (or the
distinct wrapped constructor error). -/
theorem newClient_invalid_config_iff_empty_addresses (U : Type)
    (underlying : OSConfig → Except GoErr U) (config : Config) :
    (config.addresses = [] →
      NewClient U underlying config
        = .error (.msg "at least one address is required")) ∧
    (config.addresses ≠ [] →
      NewClient U underlying config
        ≠ .error (.msg "at least one address is required") ∧
      ∀ u, underlying (toOSConfig config) = .ok u →
        NewClient U underlying config = .ok { client := u }) := by
  constructor
  · intro hempty
    simp [NewClient, hempty]
  · intro hne
    have hlen : ¬ config.addresses.length = 0 := by
      simpa [List.length_eq_zero] using hne
    constructor
    · cases hu : underlying (toOSConfig config) with
      | error e => simp [NewClient, hlen, hu]
      | ok u => simp [NewClient, hlen, hu]
    · intro u hu
      simp [NewClient, hlen, hu]

/-- Witness for the C2 theorem: a one-address configuration with a
successful underlying constructor yields the wrapping handle. -/
theorem newClient_invalid_config_iff_empty_addresses_witness :
    NewClient Nat (fun _ => .ok 0)
      { addresses := ["http://localhost:9200"], username := "",
        password := "", insecureSkipVerify := false }
      = .ok { client := 0 } :=
  ((newClient_invalid_config_iff_empty_addresses Nat (fun _ => .ok 0)
      { addresses := ["http://localhost:9200"], username := "",
        password := "", insecureSkipVerify := false }).2
    (List.cons_ne_nil _ _)).2 0 rfl

/-- C1 counterexample: a bulk response whose errors flag is set but
whose item list carries no per-item error details makes BulkCreate
return success, not an error — so "whenever the errors flag is set the
operation fails" is false on the code. -/
theorem bulkCreate_errors_flag_alone_succeeds :
    (BulkCreate "blog" [[("title", Json.str "go")]]
      (.res 200 "200 OK" (.ok { took := 1, errors := true, items := [] }))).result
      = .ok () :=
  rfl

/-- C1 (amended): whenever the bulk response's errors flag is set and at
least one item carries a non-empty error type, BulkCreate fails with the
single error message concatenating every per-item error description
(type and reason, joined by "; ") — no partial-success value is
returned. -/
theorem bulkCreate_item_errors_fail (index : String)
    (documents : List Doc) (code : Nat) (text : String)
    (resp : BulkResponse) (hne : documents ≠ [])
    (hok : isErrorStatus code = false) (herr : resp.errors = true)
    (hmsg : bulkErrorMessages resp.items ≠ []) :
    (BulkCreate index documents (.res code text (.ok resp))).result =
      .error (.msg ("bulk operation had errors: " ++
        String.intercalate "; " (bulkErrorMessages resp.items))) := by
  have hlen : ¬ documents.length = 0 := by
    simpa [List.length_eq_zero] using hne
  have hpos : (bulkErrorMessages resp.items).length > 0 :=
    List.length_pos.mpr hmsg
  simp [BulkCreate, hlen, hok, parseResponse, bulkResultOf, herr, hpos]

/-- Witness for the amended C1 theorem at a concrete failing response. -/
theorem bulkCreate_item_errors_fail_witness :
    (BulkCreate "blog" [[("title", Json.str "go")]]
      (.res 200 "200 OK" (.ok
        { took := 1, errors := true,
          items := [[("index",
            { index := "blog", id := "1", version := 0, result := "",
              status := 400,
              error := { type := "mapper_parsing_exception",
                         reason := "failed to parse" } })]] }))).result
      = .error (.msg
          "bulk operation had errors: mapper_parsing_exception: failed to parse") :=
  bulkCreate_item_errors_fail "blog" [[("title", Json.str "go")]] 200 "200 OK"
    { took := 1, errors := true,
      items := [[("index",
        { index := "blog", id := "1", version := 0, result := "",
          status := 400,
          error := { type := "mapper_parsing_exception",
                     reason := "failed to parse" } })]] }
    (by simp) rfl rfl (by decide)

theorem flatMap_pair_get (f g : Doc → Json) (l : List Doc) :
    ∀ (i : Nat) (d : Doc), l.get? i = some d →
      (l.flatMap (fun x => [f x, g x])).get? (2 * i) = some (f d) ∧
      (l.flatMap (fun x => [f x, g x])).get? (2 * i + 1) = some (g d) := by
  induction l with
  | nil => intro i d h; simp [List.get?] at h
  | cons x xs ih =>
      intro i d h
      cases i with
      | zero =>
          simp [List.get?] at h
          subst h
          simp [List.flatMap_cons, List.get?]
      | succ j =>
          simp only [List.get?] at h
          have hrec := ih j d h
          have h2 : 2 * (j + 1) = 2 * j + 1 + 1 := by omega
          have h3 : 2 * (j + 1) + 1 = 2 * j + 1 + 1 + 1 := by omega
          constructor
          · rw [h2]
            simpa [List.flatMap_cons, List.get?] using hrec.1
          · rw [h3]
            simpa [List.flatMap_cons, List.get?] using hrec.2

/-- C9: BulkCreate mutates its input: every input document that carries
the reserved "_id" key comes out of the call with that key deleted, the
request body's action line for that document carries the identifier
under "_id" inside its index object, and the document line sent to the
server is the document without "_id". -/
theorem bulkCreate_moves_id_and_mutates_input (index : String)
    (documents : List Doc) (server : TransportOutcome BulkResponse)
    (i : Nat) (doc : Doc) (hdoc : documents.get? i = some doc)
    (hid : hasKey doc "_id" = true) :
    (BulkCreate index documents server).documents.get? i
      = some (eraseKey doc "_id") ∧
    lookupKey (eraseKey doc "_id") "_id" = none ∧
    (BulkCreate index documents server).request
      = some (bulkLines index documents) ∧
    (bulkLines index documents).get? (2 * i)
      = some (bulkActionLine index doc) ∧
    (bulkLines index documents).get? (2 * i + 1)
      = some (Json.obj (eraseKey doc "_id")) ∧
    (∃ v, lookupKey doc "_id" = some v ∧
      lookupKey (bulkActionInner index doc) "_id" = some v) := by
  have hne : ¬ documents.length = 0 := by
    intro h0
    rw [List.length_eq_zero] at h0
    subst h0
    simp [List.get?] at hdoc
  obtain ⟨v, hv⟩ : ∃ v, lookupKey doc "_id" = some v := by
    cases hl : lookupKey doc "_id" with
    | none => simp [hasKey, hl] at hid
    | some v => exact ⟨v, rfl⟩
  have hpair := flatMap_pair_get (bulkActionLine index)
    (fun d => Json.obj (eraseKey d "_id")) documents i doc hdoc
  refine ⟨?_, lookupKey_eraseKey_same doc "_id", ?_, ?_, ?_, v, hv, ?_⟩
  · have : documents[i]? = some doc := by
      simpa [← List.get?_eq_getElem?] using hdoc
    simp [BulkCreate, hne, List.get?_eq_getElem?, List.getElem?_map, this]
  · simp [BulkCreate, hne]
  · simpa [bulkLines] using hpair.1
  · simpa [bulkLines] using hpair.2
  · simp [bulkActionInner, hv, lookupKey_append, lookupKey]

/-- Witness for the C9 theorem: a one-document bulk call whose document
carries "_id". -/
theorem bulkCreate_moves_id_and_mutates_input_witness :
    (BulkCreate "blog" [[("_id", Json.str "7"), ("title", Json.str "go")]]
      (.doErr (.msg "connection refused"))).documents.get? 0
      = some [("title", Json.str "go")] :=
  (bulkCreate_moves_id_and_mutates_input "blog"
    [[("_id", Json.str "7"), ("title", Json.str "go")]]
    (.doErr (.msg "connection refused")) 0
    [("_id", Json.str "7"), ("title", Json.str "go")] rfl rfl).1
